import Mathlib

/-!
Shallow embedding of `src/excitation/trajectoryGenerator.py` (FloBaRoID).

Two parts:

* The `TrajectoryOptimizer` arithmetic (`vecToParams`, `testBounds`,
  `testConstraints`, `objective_func`) is embedded over `ℚ`, so that the
  bound/constraint comparisons and the best-solution cache are decidable and
  witnesses can be checked by `decide`.  The external simulation collaborator
  (`self.sim_func`, out of scope per the spec) is a parameter producing the
  per-joint time series and the scalar `np.linalg.cond(model.YBase)`; NaN
  entries of the simulated torque series are embedded as `none`
  (`np.nanmax` skips them, `np.max` propagates them).  The trajectory object
  rebuilt at line 302 of the source is a deterministic function of the decoded
  parameters, so the simulation parameter takes the decoded `(wf, q, a, b)`
  directly.  The flags `useScipy`/`useNLopt` are `0` throughout the source
  file, so only the `(f, g, fail)` return shape is modelled.  Plotting
  (`initGraph`/`updateGraph`) and `print` calls have no effect on the
  modelled state and are elided.

* `OscillationGenerator` / `TrajectoryGenerator` are embedded over `ℝ`
  (`np.sin`, `np.cos`, `np.deg2rad`), with Python attribute errors and list
  `IndexError`s made explicit through `Option`.
-/

/-- Joint limit record as produced by `URDFHelpers.getJointLimits`
(one entry per joint name, line 153 / lines 328-336 of the source). -/
structure JointLimit where
  lower : ℚ
  upper : ℚ
  velocity : ℚ
  torque : ℚ
deriving DecidableEq

/-- Configuration slice of `TrajectoryOptimizer.__init__` that
`objective_func`/`testBounds`/`testConstraints` read: DOF count, the
(already unit-converted) box bounds, the constraint tolerance
`config['min_tol_constr']`, and the joint limits composed with
`config['jointNames']` (so joint `n` has limits `limits n`). -/
structure OptConfig where
  dofs : ℕ
  wf_min : ℚ
  wf_max : ℚ
  qmin : ℚ
  qmax : ℚ
  amin : ℚ
  amax : ℚ
  bmin : ℚ
  bmax : ℚ
  min_tol_constr : ℚ
  limits : ℕ → JointLimit

/-- Mutable optimizer state threaded through `objective_func`:
`iter_cnt` (set to 0 in `initGraph`), the best-feasible cache
`last_best_f`/`last_best_sol` (lines 190-191), and `last_g` (line 207). -/
structure OptState where
  iter_cnt : ℕ
  last_best_f : ℚ
  last_best_sol : Option (List ℚ)
  last_g : Option (List ℚ)
deriving DecidableEq

/-- Initial optimizer state: `self.last_best_f = 10e10` (i.e. `10^11`),
`self.last_best_sol = None` (lines 190-191), `self.iter_cnt = 0`,
`self.last_g = None` (lines 206-207). -/
def initOptState : OptState :=
  { iter_cnt := 0, last_best_f := 100000000000, last_best_sol := none, last_g := none }

/-- Output of the external simulation collaborator
`self.sim_func(config, trajectory)`: per-joint sampled series
(`positions n` is the column `trajectory_data['positions'][:, n]`), torques
with `none` standing for NaN samples, and
`condYBase = np.linalg.cond(model.YBase)` (line 313). -/
structure SimData where
  positions : ℕ → List ℚ
  velocities : ℕ → List ℚ
  torques : ℕ → List (Option ℚ)
  condYBase : ℚ

/-- Type of the simulation collaborator, as a function of the decoded
parameters `(wf, q, a, b)` that deterministically define the trajectory
object passed to `self.sim_func`. -/
abbrev SimFun := ℚ → List ℚ → List (List ℚ) → List (List ℚ) → SimData

/-- Split of `np.split(l, rows)` for a flat list of length `rows*cols`
into `rows` rows of `cols` entries (lines 247-248; `np.split` raises unless
the slice length divides evenly, so the theorems below restrict `x` to the
documented layout length on which this total function agrees with it). -/
def splitRows (l : List ℚ) (rows cols : ℕ) : List (List ℚ) :=
  (List.range rows).map fun i => (l.drop (i * cols)).take cols

/-- Embedding of `TrajectoryOptimizer.vecToParams` (lines 242-249):
`wf = x[0]`, `q = x[1:dofs+1]`, then `a` and `b` as `dofs` rows of `nf0`
coefficients each (`ab_len = dofs*nf0`). -/
def vecToParams (dofs nf0 : ℕ) (x : List ℚ) : ℚ × List ℚ × List (List ℚ) × List (List ℚ) :=
  let wf := x.headD 0
  let q := (x.drop 1).take dofs
  let ab_len := dofs * nf0
  let a := splitRows ((x.drop (dofs + 1)).take ab_len) dofs nf0
  let b := splitRows ((x.drop (dofs + 1 + ab_len)).take ab_len) dofs nf0
  (wf, q, a, b)

/-- Embedding of `TrajectoryOptimizer.testBounds` (lines 377-389):
`wf ∈ [wf_min, wf_max]` and elementwise box bounds on `q`, `a`, `b`
(the `print "bounds violated"` side effect carries no state). -/
def testBounds (cfg : OptConfig) (x : List ℚ) : Bool :=
  let p := vecToParams cfg.dofs 4 x
  let wf := p.1
  let q := p.2.1
  let a := p.2.2.1
  let b := p.2.2.2
  (decide (cfg.wf_min ≤ wf) && decide (wf ≤ cfg.wf_max))
    && (q.all (fun v => decide (v ≤ cfg.qmax)) && q.all (fun v => decide (cfg.qmin ≤ v)))
    && (a.all (fun r => r.all fun v => decide (v ≤ cfg.amax))
        && a.all (fun r => r.all fun v => decide (cfg.amin ≤ v)))
    && (b.all (fun r => r.all fun v => decide (v ≤ cfg.bmax))
        && b.all (fun r => r.all fun v => decide (cfg.bmin ≤ v)))

/-- Python's `np.min` over a nonempty sample column (`np.min` raises on an
empty array; the default `0` is never exercised by the claims). -/
def listMin (l : List ℚ) : ℚ := (l.min?).getD 0

/-- Python's `np.max` over a nonempty sample column. -/
def listMax (l : List ℚ) : ℚ := (l.max?).getD 0

/-- Embedding of `np.nanmax`: the maximum over the non-NaN (`some`) entries,
NaN (`none`) entries are skipped (line 334). -/
def nanMax (l : List (Option ℚ)) : ℚ := ((l.filterMap id).max?).getD 0

/-- Embedding of `np.max(np.abs(column))` when the column may hold NaN:
`np.max` propagates NaN, so the result is `none` as soon as any sample is
NaN (line 340 uses `np.max`, not `np.nanmax`). -/
def npMaxAbsOpt (l : List (Option ℚ)) : Option ℚ :=
  if l.any (fun o => o.isNone) then none
  else ((l.filterMap id).map (fun v => |v|)).max?

/-- Constraint vector of `objective_func` (lines 323-336): five stacked
blocks of size `dofs` — lower-position margin, upper-position margin,
velocity margin, NaN-tolerant torque margin, minimum-excitation-velocity
margin.  The source initialises `g = [0.0]*dofs*5` and assigns the five
disjoint index blocks in one loop over `n`; the concatenation below is the
resulting list. -/
def constraintVec (cfg : OptConfig) (d : SimData) : List ℚ :=
  ((List.range cfg.dofs).map fun n => (cfg.limits n).lower - listMin (d.positions n))
    ++ ((List.range cfg.dofs).map fun n => listMax (d.positions n) - (cfg.limits n).upper)
    ++ ((List.range cfg.dofs).map fun n =>
          listMax ((d.velocities n).map fun v => |v|) - (cfg.limits n).velocity)
    ++ ((List.range cfg.dofs).map fun n =>
          nanMax ((d.torques n).map (Option.map fun v => |v|)) - (cfg.limits n).torque)
    ++ ((List.range cfg.dofs).map fun n =>
          (cfg.limits n).velocity * (1 / 10) - listMax ((d.velocities n).map fun v => |v|))

/-- Secondary objective `f1` (lines 321, 340-342): for each joint the
deficit `0.1*torque_limit - np.max(np.abs(torques))` is accumulated when
positive; a NaN deficit (NaN in the column, since line 340 uses plain
`np.max`) fails the `> 0` comparison and is skipped. -/
def f1val (cfg : OptConfig) (d : SimData) : ℚ :=
  (List.range cfg.dofs).foldl
    (fun acc n =>
      match npMaxAbsOpt (d.torques n) with
      | none => acc
      | some m => if 0 < (cfg.limits n).torque * (1 / 10) - m
                  then acc + ((cfg.limits n).torque * (1 / 10) - m) else acc)
    0

/-- Diagnostic membership test of `testConstraints` (lines 395-403):
`True in np.in1d(range(lo, lo+cnt), np.where(g >= min_tol_constr))`,
i.e. some index in `[lo, lo+cnt)` is a valid index of `g` whose entry is
`>= min_tol_constr`. -/
def diagHit (tol : ℚ) (g : List ℚ) (lo cnt : ℕ) : Bool :=
  (List.range' lo cnt).any fun j => decide (j < g.length) && decide (tol ≤ g.getD j 0)

/-- Diagnostic classification printed by `testConstraints` when the result
is false: which limit classes were reported (lines 395-403). -/
structure ConstrDiag where
  angle : Bool
  maxVel : Bool
  torque : Bool
  minVel : Bool
deriving DecidableEq

/-- Embedding of `TrajectoryOptimizer.testConstraints` (lines 391-407):
the returned boolean is `np.all(g <= min_tol_constr)`; the diagnostic
classification is only printed on the violated branch (the angle check
scans `range(1, 2*dofs)` — index `0` is never inspected). -/
def testConstraints (cfg : OptConfig) (g : List ℚ) : Bool × ConstrDiag :=
  let res := g.all fun v => decide (v ≤ cfg.min_tol_constr)
  let diag : ConstrDiag :=
    if res then ⟨false, false, false, false⟩
    else
      ⟨diagHit cfg.min_tol_constr g 1 (2 * cfg.dofs - 1),
       diagHit cfg.min_tol_constr g (2 * cfg.dofs) cfg.dofs,
       diagHit cfg.min_tol_constr g (3 * cfg.dofs) cfg.dofs,
       diagHit cfg.min_tol_constr g (4 * cfg.dofs) cfg.dofs⟩
  (res, diag)

/-- Embedding of `TrajectoryOptimizer.objective_func` (lines 278-375) on the
default backend path (`useScipy = useNLopt = 0`): increment `iter_cnt`;
out-of-bounds vectors take the penalty branch (lines 289-300) without
consulting the simulation and with the counter decremented back; otherwise
the simulation runs on the decoded parameters, `f` is the regressor
condition number plus the positive torque deficit `f1`, `g` is the
five-block constraint vector, `last_g` is recorded, and the best-feasible
cache is updated when the point is feasible and improves on it
(lines 368-371).  Returns `((f, g, fail), new state)`. -/
def objective_func (cfg : OptConfig) (sim : SimFun) (st : OptState) (x : List ℚ) :
    (ℚ × List ℚ × ℚ) × OptState :=
  let st1 : OptState := { st with iter_cnt := st.iter_cnt + 1 }
  if testBounds cfg x then
    let p := vecToParams cfg.dofs 4 x
    let d := sim p.1 p.2.1 p.2.2.1 p.2.2.2
    let f1 := f1val cfg d
    let f := if 0 < f1 then d.condYBase + f1 else d.condYBase
    let g := constraintVec cfg d
    let st2 : OptState := { st1 with last_g := some g }
    let c := (testConstraints cfg g).1
    let st3 : OptState :=
      if c ∧ f < st2.last_best_f then
        { st2 with last_best_f := f, last_best_sol := some x }
      else st2
    ((f, g, 0), st3)
  else
    ((10000, List.replicate (cfg.dofs * 5) 10, 1), { st1 with iter_cnt := st1.iter_cnt - 1 })

/-- Simulation data that `objective_func` obtains for an in-bounds `x`
(line 302/309: the trajectory is rebuilt from the decoded parameters and
passed to `self.sim_func`). -/
def simAt (cfg : OptConfig) (sim : SimFun) (x : List ℚ) : SimData :=
  let p := vecToParams cfg.dofs 4 x
  sim p.1 p.2.1 p.2.2.1 p.2.2.2

/-- Objective value that `objective_func` computes for an in-bounds `x`
(lines 313, 321, 346-347). -/
def evalObj (cfg : OptConfig) (sim : SimFun) (x : List ℚ) : ℚ :=
  let d := simAt cfg sim x
  let f1 := f1val cfg d
  if 0 < f1 then d.condYBase + f1 else d.condYBase

/-- Constraint vector that `objective_func` computes for an in-bounds `x`. -/
def evalG (cfg : OptConfig) (sim : SimFun) (x : List ℚ) : List ℚ :=
  constraintVec cfg (simAt cfg sim x)

/-- Feasibility of an in-bounds `x`: `testConstraints` on its constraint
vector (line 350). -/
def feasible (cfg : OptConfig) (sim : SimFun) (x : List ℚ) : Bool :=
  (testConstraints cfg (evalG cfg sim x)).1

/-- Python's `np.deg2rad` over exact reals. -/
noncomputable def deg2rad (x : ℝ) : ℝ := x * (Real.pi / 180)

/-- Python's `np.rad2deg` over exact reals. -/
noncomputable def rad2deg (x : ℝ) : ℝ := x * (180 / Real.pi)

/-- Field state of `OscillationGenerator` after `__init__` (lines 100-117):
`q0` is stored already normalized (converted through `np.deg2rad` when
`use_deg`). -/
structure OscillationGenerator where
  w_f : ℝ
  a : List ℝ
  b : List ℝ
  use_deg : Bool
  q0 : ℝ
  nf : ℕ

/-- Embedding of the `OscillationGenerator` constructor (lines 100-117):
stores the arguments and normalizes `q0` to radians when `use_deg`. -/
noncomputable def mkOsc (w_f : ℝ) (a b : List ℝ) (q0 : ℝ) (nf : ℕ) (use_deg : Bool) :
    OscillationGenerator :=
  { w_f := w_f, a := a, b := b, use_deg := use_deg
    q0 := if use_deg then deg2rad q0 else q0, nf := nf }

/-- Embedding of `OscillationGenerator.getAngle` (lines 119-128): the loop
`for l in range(1, nf+1)` is the sum over `l ∈ Finset.range nf` of the term
at harmonic `l+1`; the body reads `a[l-1]`, `b[l-1]` (out-of-range reads
raise in Python; the claims below carry the length invariant
`len(a) = len(b) = nf`, on which `List.getD` agrees with Python indexing). -/
noncomputable def OscillationGenerator.getAngle (o : OscillationGenerator) (t : ℝ) : ℝ :=
  let q := (∑ l in Finset.range o.nf,
      (((o.a.getD l 0) / (o.w_f * ((l : ℝ) + 1))) * Real.sin (o.w_f * ((l : ℝ) + 1) * t)
        - ((o.b.getD l 0) / (o.w_f * ((l : ℝ) + 1))) * Real.cos (o.w_f * ((l : ℝ) + 1) * t)))
    + (o.nf : ℝ) * o.q0
  if o.use_deg then rad2deg q else q

/-- Embedding of `OscillationGenerator.getVelocity` (lines 130-137). -/
noncomputable def OscillationGenerator.getVelocity (o : OscillationGenerator) (t : ℝ) : ℝ :=
  let dq := ∑ l in Finset.range o.nf,
      ((o.a.getD l 0) * Real.cos (o.w_f * ((l : ℝ) + 1) * t)
        + (o.b.getD l 0) * Real.sin (o.w_f * ((l : ℝ) + 1) * t))
  if o.use_deg then rad2deg dq else dq

/-- Embedding of `OscillationGenerator.getAcceleration` (lines 139-146). -/
noncomputable def OscillationGenerator.getAcceleration (o : OscillationGenerator) (t : ℝ) : ℝ :=
  let ddq := ∑ l in Finset.range o.nf,
      (-(o.a.getD l 0) * (o.w_f * ((l : ℝ) + 1)) * Real.sin (o.w_f * ((l : ℝ) + 1) * t)
        + (o.b.getD l 0) * (o.w_f * ((l : ℝ) + 1)) * Real.cos (o.w_f * ((l : ℝ) + 1) * t))
  if o.use_deg then rad2deg ddq else ddq

/-- Field state of `TrajectoryGenerator`: `self.time` is `none` until
`setTime` first runs (the attribute does not exist before that, so reading
it raises `AttributeError`). -/
structure TGState where
  dofs : ℕ
  oscillators : List OscillationGenerator
  use_deg : Bool
  w_f_global : ℝ
  time : Option ℝ

/-- Embedding of `TrajectoryGenerator.__init__` (lines 18-22): empty
oscillator list, `w_f_global = 1.0`, no current time. -/
def TrajectoryGenerator.mkInit (dofs : ℕ) (use_deg : Bool) : TGState :=
  { dofs := dofs, oscillators := [], use_deg := use_deg, w_f_global := 1, time := none }

/-- Embedding of `TrajectoryGenerator.setTime` (lines 89-91). -/
def TrajectoryGenerator.setTime (st : TGState) (t : ℝ) : TGState :=
  { st with time := some t }

/-- Embedding of `TrajectoryGenerator.getAngle` (lines 73-75):
`self.oscillators[dof]` is looked up first (`IndexError` when out of
range), then `self.time` is read (`AttributeError` when never set); both
failure modes are `none`. -/
noncomputable def TrajectoryGenerator.getAngle (st : TGState) (dof : ℕ) : Option ℝ :=
  match st.oscillators.get? dof with
  | none => none
  | some o => match st.time with
    | none => none
    | some t => some (o.getAngle t)

/-- Embedding of `TrajectoryGenerator.getVelocity` (lines 77-79). -/
noncomputable def TrajectoryGenerator.getVelocity (st : TGState) (dof : ℕ) : Option ℝ :=
  match st.oscillators.get? dof with
  | none => none
  | some o => match st.time with
    | none => none
    | some t => some (o.getVelocity t)

/-- Embedding of `TrajectoryGenerator.getAcceleration` (lines 81-83). -/
noncomputable def TrajectoryGenerator.getAcceleration (st : TGState) (dof : ℕ) : Option ℝ :=
  match st.oscillators.get? dof with
  | none => none
  | some o => match st.time with
    | none => none
    | some t => some (o.getAcceleration t)

/-- Oscillator-building loop of `initWithParams` (lines 67-71): index `i`
walks up while the fuel counts the remaining iterations of
`range(0, dofs)`.  Reading `a[i]`/`b[i]`/`q[i]`/`nf[i]` past the end raises
`IndexError`, which aborts the loop leaving the oscillators appended so
far. -/
noncomputable def mkOscillators (w_f : ℝ) (use_deg : Bool) (a b : List (List ℝ))
    (q : List ℝ) (nf : List ℕ) : ℕ → ℕ → List OscillationGenerator × Option String
  | _, 0 => ([], none)
  | i, n + 1 =>
    match a.get? i, b.get? i, q.get? i, nf.get? i with
    | some ai, some bi, some qi, some nfi =>
      let r := mkOscillators w_f use_deg a b q nf (i + 1) n
      (mkOsc w_f ai bi qi nfi use_deg :: r.1, r.2)
    | _, _, _, _ => ([], some "IndexError: list index out of range")

/-- Embedding of `TrajectoryGenerator.initWithParams` (lines 48-71).  The
length guard on `nf` and `q` raises before any state is touched; `if wf:`
is Python float truthiness, so `wf = 0.0` does not update `w_f_global`;
then `self.oscillators` is reset and rebuilt, possibly stopping part-way
on an `IndexError` from `a[i]`/`b[i]`.  The returned pair is the resulting
object state together with the raised exception, if any. -/
noncomputable def TrajectoryGenerator.initWithParams (st : TGState) (a b : List (List ℝ))
    (q : List ℝ) (nf : List ℕ) (wf : Option ℝ) : TGState × Option String :=
  if nf.length ≠ st.dofs ∨ q.length ≠ st.dofs then
    (st, some "Need DOFs many values for nf and q!")
  else
    let st1 := match wf with
      | none => st
      | some w => if w = 0 then st else { st with w_f_global := w }
    let r := mkOscillators st1.w_f_global st.use_deg a b q nf 0 st.dofs
    ({ st1 with oscillators := r.1 }, r.2)

/-- Embedding of `TrajectoryGenerator.initWithRandomParams` (lines 24-46),
with the three random sources as parameters: `nfD i` is the draw of
`np.random.randint(1, 4)` for DOF `i`, and `qU i`, `aU i j`, `bU i j` are
the raw `np.random.rand()` draws in `[0,1)` from which
`q[i] = qU i * 2 - 1` and `a[i][j] = aU i j * mx - mx/2` with
`mx = 2.0 - np.abs(q[i])` are computed.  When `use_deg`, `q` is converted
with `np.rad2deg` before being handed to the oscillator constructor (which
converts it back). -/
noncomputable def TrajectoryGenerator.initWithRandomParams (st : TGState)
    (nfD : ℕ → ℕ) (qU : ℕ → ℝ) (aU bU : ℕ → ℕ → ℝ) : TGState :=
  let q : ℕ → ℝ := fun i => qU i * 2 - 1
  let mx : ℕ → ℝ := fun i => 2 - |q i|
  let a : ℕ → List ℝ := fun i => (List.range (nfD i)).map fun j => aU i j * mx i - mx i / 2
  let b : ℕ → List ℝ := fun i => (List.range (nfD i)).map fun j => bU i j * mx i - mx i / 2
  let qOut : ℕ → ℝ := fun i => if st.use_deg then rad2deg (q i) else q i
  { st with oscillators :=
      (List.range st.dofs).map fun i =>
        mkOsc st.w_f_global (a i) (b i) (qOut i) (nfD i) st.use_deg }

/-- Oscillator of the end-to-end scenario of the spec: one harmonic,
`a = [1.0]`, `b = [0.0]`, `q0 = 0`, `w_f = 1.0`, radians. -/
noncomputable def oscEx : OscillationGenerator := mkOsc 1 [1] [0] 0 1 false

/-- Reindexing of the angle series: the loop over `range(1, nf+1)` of the
source equals the spec's sum over `l = 1..nf`. -/
theorem angle_series_reindex (o : OscillationGenerator) (t : ℝ) :
    (∑ l in Finset.Icc 1 o.nf,
        (((o.a.getD (l - 1) 0) / (o.w_f * (l : ℝ))) * Real.sin (o.w_f * (l : ℝ) * t)
          - ((o.b.getD (l - 1) 0) / (o.w_f * (l : ℝ))) * Real.cos (o.w_f * (l : ℝ) * t)))
      = ∑ l in Finset.range o.nf,
        (((o.a.getD l 0) / (o.w_f * ((l : ℝ) + 1))) * Real.sin (o.w_f * ((l : ℝ) + 1) * t)
          - ((o.b.getD l 0) / (o.w_f * ((l : ℝ) + 1))) * Real.cos (o.w_f * ((l : ℝ) + 1) * t)) := by
  rw [← Nat.Ico_succ_right, Finset.sum_Ico_eq_sum_range]
  refine Finset.sum_congr (by norm_num) fun i _ => ?_
  have hc : ((1 + i : ℕ) : ℝ) = (i : ℝ) + 1 := by push_cast; ring
  simp only [Nat.add_sub_cancel_left, hc]

/-- C4: for every constructed generator, `getAngle(t)` is the Swevers
series `Σ_{l=1..nf} (a[l-1]/(w_f·l))·sin(w_f·l·t) − (b[l-1]/(w_f·l))·cos(w_f·l·t)`
plus `nf·q0`, converted to degrees at the output when `use_deg`; and in the
end-to-end scenario (`nf = 1`, `a = [1]`, `b = [0]`, `q0 = 0`, `w_f = 1`,
radians) the angle is `0` at `t = 0` and `1` at `t = π/2`, the velocity is
`1` at `t = 0` and `0` at `t = π/2`, and the acceleration is `0` at
`t = 0`. -/
theorem getAngle_formula_and_scenario :
    (∀ (o : OscillationGenerator) (t : ℝ),
      o.getAngle t =
        (let s := (∑ l in Finset.Icc 1 o.nf,
            (((o.a.getD (l - 1) 0) / (o.w_f * (l : ℝ))) * Real.sin (o.w_f * (l : ℝ) * t)
              - ((o.b.getD (l - 1) 0) / (o.w_f * (l : ℝ))) * Real.cos (o.w_f * (l : ℝ) * t)))
          + (o.nf : ℝ) * o.q0
         if o.use_deg then rad2deg s else s))
    ∧ oscEx.getAngle 0 = 0 ∧ oscEx.getAngle (Real.pi / 2) = 1
    ∧ oscEx.getVelocity 0 = 1 ∧ oscEx.getVelocity (Real.pi / 2) = 0
    ∧ oscEx.getAcceleration 0 = 0 := by
  refine ⟨fun o t => ?_, ?_, ?_, ?_, ?_, ?_⟩
  · simp only [OscillationGenerator.getAngle, angle_series_reindex]
  · simp [oscEx, mkOsc, OscillationGenerator.getAngle, Finset.sum_range_one]
  · simp [oscEx, mkOsc, OscillationGenerator.getAngle, Finset.sum_range_one]
  · simp [oscEx, mkOsc, OscillationGenerator.getVelocity, Finset.sum_range_one]
  · simp [oscEx, mkOsc, OscillationGenerator.getVelocity, Finset.sum_range_one]
  · simp [oscEx, mkOsc, OscillationGenerator.getAcceleration, Finset.sum_range_one]

/-- C5: for every oscillator with `w_f > 0`, `getVelocity(t)` is exactly the
time derivative of `getAngle(t)` at every `t`, over exact real arithmetic
(the angle series is the closed-form integral of the velocity series apart
from the constant offset `nf*q0`). -/
theorem getVelocity_deriv_getAngle (o : OscillationGenerator) (t : ℝ) (hw : 0 < o.w_f) :
    HasDerivAt (fun s => o.getAngle s) (o.getVelocity t) t := by
  have key : HasDerivAt
      (fun s => (∑ l in Finset.range o.nf,
        (((o.a.getD l 0) / (o.w_f * ((l : ℝ) + 1))) * Real.sin (o.w_f * ((l : ℝ) + 1) * s)
          - ((o.b.getD l 0) / (o.w_f * ((l : ℝ) + 1))) * Real.cos (o.w_f * ((l : ℝ) + 1) * s)))
        + (o.nf : ℝ) * o.q0)
      (∑ l in Finset.range o.nf,
        ((o.a.getD l 0) * Real.cos (o.w_f * ((l : ℝ) + 1) * t)
          + (o.b.getD l 0) * Real.sin (o.w_f * ((l : ℝ) + 1) * t))) t := by
    refine HasDerivAt.add_const ?_ _
    refine HasDerivAt.sum fun l _ => ?_
    have hc0 : o.w_f * ((l : ℝ) + 1) ≠ 0 := by positivity
    have hlin : HasDerivAt (fun s : ℝ => o.w_f * ((l : ℝ) + 1) * s) (o.w_f * ((l : ℝ) + 1)) t := by
      simpa using (hasDerivAt_id t).const_mul (o.w_f * ((l : ℝ) + 1))
    have hterm := (hlin.sin.const_mul ((o.a.getD l 0) / (o.w_f * ((l : ℝ) + 1)))).sub
      (hlin.cos.const_mul ((o.b.getD l 0) / (o.w_f * ((l : ℝ) + 1))))
    convert hterm using 1
    field_simp
    ring
  cases hu : o.use_deg
  · simpa [OscillationGenerator.getAngle, OscillationGenerator.getVelocity, hu] using key
  · have hd := key.mul_const (180 / Real.pi)
    simpa [OscillationGenerator.getAngle, OscillationGenerator.getVelocity, rad2deg, hu] using hd

/-- Witness for the derivative claim: the scenario oscillator has positive
pulsation and its angle has the claimed derivative at `t = 0`. -/
theorem getVelocity_deriv_getAngle_witness :
    0 < oscEx.w_f ∧ HasDerivAt (fun s => oscEx.getAngle s) (oscEx.getVelocity 0) 0 :=
  ⟨by norm_num [oscEx, mkOsc], getVelocity_deriv_getAngle oscEx 0 (by norm_num [oscEx, mkOsc])⟩

/-- Helper: an exception-free run of the oscillator-building loop appended
exactly its fuel many oscillators. -/
theorem mkOscillators_ok_length (w_f : ℝ) (use_deg : Bool) (a b : List (List ℝ))
    (q : List ℝ) (nf : List ℕ) :
    ∀ (n i : ℕ), (mkOscillators w_f use_deg a b q nf i n).2 = none →
      (mkOscillators w_f use_deg a b q nf i n).1.length = n := by
  intro n
  induction n with
  | zero => intro i _; rfl
  | succ m ih =>
    intro i h
    cases ha : a[i]? with
    | none => simp [mkOscillators, ha] at h
    | some ai =>
      cases hb : b[i]? with
      | none => simp [mkOscillators, ha, hb] at h
      | some bi =>
        cases hq : q[i]? with
        | none => simp [mkOscillators, ha, hb, hq] at h
        | some qi =>
          cases hnf : nf[i]? with
          | none => simp [mkOscillators, ha, hb, hq, hnf] at h
          | some nfi =>
            simp [mkOscillators, ha, hb, hq, hnf] at h ⊢
            exact ih (i + 1) h

/-- Helper: a successful `initWithParams` keeps the DOF count and the time
field, and populates exactly `dofs` oscillators. -/
theorem initWithParams_ok (st : TGState) (a b : List (List ℝ)) (q : List ℝ)
    (nf : List ℕ) (wf : Option ℝ) (st' : TGState)
    (h : TrajectoryGenerator.initWithParams st a b q nf wf = (st', none)) :
    st'.dofs = st.dofs ∧ st'.oscillators.length = st.dofs ∧ st'.time = st.time := by
  by_cases hg : nf.length ≠ st.dofs ∨ q.length ≠ st.dofs
  · simp [TrajectoryGenerator.initWithParams, hg] at h
  · simp only [TrajectoryGenerator.initWithParams, hg, if_false] at h
    have hdofs : (match wf with
        | none => st
        | some w => if w = 0 then st else { st with w_f_global := w }).dofs = st.dofs := by
      cases wf with
      | none => rfl
      | some w =>
        by_cases hw : w = 0
        · simp [hw]
        · simp [hw]
    have htime : (match wf with
        | none => st
        | some w => if w = 0 then st else { st with w_f_global := w }).time = st.time := by
      cases wf with
      | none => rfl
      | some w =>
        by_cases hw : w = 0
        · simp [hw]
        · simp [hw]
    obtain ⟨hst, herr⟩ := Prod.mk.injEq .. ▸ h
    subst hst
    refine ⟨hdofs, ?_, htime⟩
    simp only [hdofs]
    exact mkOscillators_ok_length _ _ a b q nf st.dofs 0 herr

/-- Helper: after `setTime`, a kinematic query succeeds exactly when the DOF
index is a valid oscillator index. -/
theorem getAngle_setTime_isSome (st : TGState) (t : ℝ) (dof : ℕ) :
    (TrajectoryGenerator.getAngle (TrajectoryGenerator.setTime st t) dof).isSome
      ↔ dof < st.oscillators.length := by
  cases h : st.oscillators.get? dof with
  | none =>
    simp only [TrajectoryGenerator.getAngle, TrajectoryGenerator.setTime]
    rw [h]
    rw [List.get?_eq_getElem?] at h
    simpa using List.getElem?_eq_none_iff.mp h
  | some o =>
    have hlt : dof < st.oscillators.length := by
      rw [List.get?_eq_getElem?] at h
      obtain ⟨hlt, -⟩ := List.getElem?_eq_some_iff.mp h
      exact hlt
    simp only [TrajectoryGenerator.getAngle, TrajectoryGenerator.setTime]
    rw [h]
    simpa using hlt

/-- C9: on a freshly constructed `TrajectoryGenerator` (no init call, no
`setTime`), every `getAngle`/`getVelocity`/`getAcceleration` call fails
even for `dof < D` (the oscillator list is empty and no time attribute
exists); and the out-of-range-only failure contract holds after an init
call populated `D` oscillators and `setTime` ran: then a query fails
exactly for `dof` outside `[0, D)`. -/
theorem fresh_generator_queries_fail :
    (∀ (dofs : ℕ) (use_deg : Bool) (dof : ℕ),
      TrajectoryGenerator.getAngle (TrajectoryGenerator.mkInit dofs use_deg) dof = none
      ∧ TrajectoryGenerator.getVelocity (TrajectoryGenerator.mkInit dofs use_deg) dof = none
      ∧ TrajectoryGenerator.getAcceleration (TrajectoryGenerator.mkInit dofs use_deg) dof = none)
    ∧ (∀ (st : TGState) (a b : List (List ℝ)) (q : List ℝ) (nf : List ℕ) (wf : Option ℝ)
        (st' : TGState) (t : ℝ) (dof : ℕ),
        TrajectoryGenerator.initWithParams st a b q nf wf = (st', none) →
        ((TrajectoryGenerator.getAngle (TrajectoryGenerator.setTime st' t) dof).isSome
          ↔ dof < st.dofs)) := by
  constructor
  · intro dofs use_deg dof
    refine ⟨?_, ?_, ?_⟩ <;>
      simp [TrajectoryGenerator.getAngle, TrajectoryGenerator.getVelocity,
        TrajectoryGenerator.getAcceleration, TrajectoryGenerator.mkInit]
  · intro st a b q nf wf st' t dof h
    obtain ⟨-, hlen, -⟩ := initWithParams_ok st a b q nf wf st' h
    rw [getAngle_setTime_isSome, hlen]

/-- Witness for the failure-contract claim: a fresh one-DOF generator fails
its query at dof 0, and after a successful explicit init plus `setTime` the
query at dof 0 succeeds. -/
theorem fresh_generator_queries_fail_witness :
    TrajectoryGenerator.getAngle (TrajectoryGenerator.mkInit 1 false) 0 = none
    ∧ ((TrajectoryGenerator.getAngle
        (TrajectoryGenerator.setTime
          (TrajectoryGenerator.initWithParams (TrajectoryGenerator.mkInit 1 false)
            [[1]] [[0]] [0] [1] none).1 0) 0).isSome
      ↔ 0 < (TrajectoryGenerator.mkInit 1 false).dofs) :=
  ⟨(fresh_generator_queries_fail.1 1 false 0).1,
   fresh_generator_queries_fail.2 (TrajectoryGenerator.mkInit 1 false)
     [[1]] [[0]] [0] [1] none _ 0 0 rfl⟩

/-- Cancellation of the two unit conversions applied to the offset. -/
theorem deg2rad_rad2deg (x : ℝ) : deg2rad (rad2deg x) = x := by
  rw [deg2rad, rad2deg]
  field_simp

/-- Trajectory generator holding one oscillator, the state before the
non-atomic re-initialization of the C6 counterexample. -/
noncomputable def tgPre : TGState :=
  { dofs := 1, oscillators := [mkOsc 1 [1] [0] 0 1 false], use_deg := false,
    w_f_global := 1, time := none }

/-- C6 counterexample: with `nf` and `q` of the correct length `D = 1` but
`a = []` shorter than `D`, `initWithParams` raises (an `IndexError`, not
the length guard) yet has already overwritten `w_f_global` with the passed
`wf = 2` and replaced the one-element oscillator list by the partially
constructed empty one — so the call does not leave the previous state
unchanged for every mismatched-length input. -/
theorem initWithParams_partial_state_counterexample :
    ((TrajectoryGenerator.initWithParams tgPre [] [[1]] [0] [1] (some 2)).2).isSome = true
    ∧ (TrajectoryGenerator.initWithParams tgPre [] [[1]] [0] [1] (some 2)).1.w_f_global = 2
    ∧ tgPre.w_f_global = 1
    ∧ (TrajectoryGenerator.initWithParams tgPre [] [[1]] [0] [1] (some 2)).1.oscillators.length = 0
    ∧ tgPre.oscillators.length = 1 := by
  have h2 : (2 : ℝ) ≠ 0 := by norm_num
  refine ⟨?_, ?_, rfl, ?_, rfl⟩ <;>
    simp [TrajectoryGenerator.initWithParams, tgPre, mkOscillators, h2]

/-- C6 amended: the guarded mismatches are atomic — whenever
`len(nf) != D` or `len(q) != D`, `initWithParams` raises the configuration
error before touching any state, returning the previous state unchanged
(oscillator list and `w_f_global` included).  When `nf` and `q` are
well-sized but `a` or `b` is shorter than `D`, the call instead fails
part-way through the rebuild with `w_f_global` possibly updated and a
partially-constructed oscillator list, as the counterexample exhibits. -/
theorem initWithParams_length_guard_atomic (st : TGState) (a b : List (List ℝ))
    (q : List ℝ) (nf : List ℕ) (wf : Option ℝ)
    (h : nf.length ≠ st.dofs ∨ q.length ≠ st.dofs) :
    TrajectoryGenerator.initWithParams st a b q nf wf
      = (st, some "Need DOFs many values for nf and q!") := by
  unfold TrajectoryGenerator.initWithParams
  rw [if_pos h]

/-- Witness for the length-guard atomicity at a concrete mismatched call. -/
theorem initWithParams_length_guard_atomic_witness :
    (([] : List ℕ).length ≠ (TrajectoryGenerator.mkInit 1 false).dofs)
    ∧ TrajectoryGenerator.initWithParams (TrajectoryGenerator.mkInit 1 false) [] [] [] [] none
      = (TrajectoryGenerator.mkInit 1 false, some "Need DOFs many values for nf and q!") :=
  ⟨by decide,
   initWithParams_length_guard_atomic _ [] [] [] [] none (Or.inl (by decide))⟩

/-- C8: every `initWithRandomParams` call — for any admissible random draws
(`randint(1,4)` harmonic counts, `rand()` uniforms in `[0,1)`) and either
`use_deg` setting — rebuilds exactly `D` oscillators, each with harmonic
count `nf_i ∈ [1,4)`, stored offset `|q0_i| ≤ 1` rad, and coefficient
lists `a_i`, `b_i` of length `nf_i` whose entries lie in
`[-(2-|q0_i|)/2, (2-|q0_i|)/2)`; the embedding is a total function of the
draws, so no draw can raise. -/
theorem initWithRandomParams_bounds (st : TGState) (nfD : ℕ → ℕ) (qU : ℕ → ℝ)
    (aU bU : ℕ → ℕ → ℝ)
    (hnf : ∀ i, 1 ≤ nfD i ∧ nfD i < 4)
    (hq : ∀ i, 0 ≤ qU i ∧ qU i < 1)
    (ha : ∀ i j, 0 ≤ aU i j ∧ aU i j < 1)
    (hb : ∀ i j, 0 ≤ bU i j ∧ bU i j < 1) :
    (TrajectoryGenerator.initWithRandomParams st nfD qU aU bU).oscillators.length = st.dofs
    ∧ ∀ o ∈ (TrajectoryGenerator.initWithRandomParams st nfD qU aU bU).oscillators,
        (1 ≤ o.nf ∧ o.nf < 4) ∧ |o.q0| ≤ 1
        ∧ o.a.length = o.nf ∧ o.b.length = o.nf
        ∧ (∀ x ∈ o.a, -((2 - |o.q0|) / 2) ≤ x ∧ x < (2 - |o.q0|) / 2)
        ∧ (∀ x ∈ o.b, -((2 - |o.q0|) / 2) ≤ x ∧ x < (2 - |o.q0|) / 2) := by
  constructor
  · simp [TrajectoryGenerator.initWithRandomParams]
  · intro o ho
    simp only [TrajectoryGenerator.initWithRandomParams, List.mem_map, List.mem_range] at ho
    obtain ⟨i, _, rfl⟩ := ho
    obtain ⟨hq0, hq1⟩ := hq i
    have hqv : |qU i * 2 - 1| ≤ 1 := abs_le.mpr ⟨by linarith, by linarith⟩
    have hq0eq : (mkOsc st.w_f_global
        ((List.range (nfD i)).map fun j => aU i j * (2 - |qU i * 2 - 1|) - (2 - |qU i * 2 - 1|) / 2)
        ((List.range (nfD i)).map fun j => bU i j * (2 - |qU i * 2 - 1|) - (2 - |qU i * 2 - 1|) / 2)
        (if st.use_deg then rad2deg (qU i * 2 - 1) else qU i * 2 - 1)
        (nfD i) st.use_deg).q0 = qU i * 2 - 1 := by
      by_cases hu : st.use_deg <;> simp [mkOsc, hu, deg2rad_rad2deg]
    rw [hq0eq]
    have hmx : (1 : ℝ) ≤ 2 - |qU i * 2 - 1| := by linarith [hqv]
    refine ⟨hnf i, hqv, by simp [mkOsc], by simp [mkOsc], ?_, ?_⟩
    · intro x hx
      simp only [mkOsc, List.mem_map, List.mem_range] at hx
      obtain ⟨j, _, rfl⟩ := hx
      obtain ⟨haj0, haj1⟩ := ha i j
      have h1 : 0 ≤ aU i j * (2 - |qU i * 2 - 1|) := by positivity
      have h2 : aU i j * (2 - |qU i * 2 - 1|) < 1 * (2 - |qU i * 2 - 1|) :=
        mul_lt_mul_of_pos_right haj1 (by linarith)
      constructor <;> [linarith; linarith]
    · intro x hx
      simp only [mkOsc, List.mem_map, List.mem_range] at hx
      obtain ⟨j, _, rfl⟩ := hx
      obtain ⟨hbj0, hbj1⟩ := hb i j
      have h1 : 0 ≤ bU i j * (2 - |qU i * 2 - 1|) := by positivity
      have h2 : bU i j * (2 - |qU i * 2 - 1|) < 1 * (2 - |qU i * 2 - 1|) :=
        mul_lt_mul_of_pos_right hbj1 (by linarith)
      constructor <;> [linarith; linarith]

/-- Witness for the random-initialization bounds at concrete draws. -/
theorem initWithRandomParams_bounds_witness :
    ((1 : ℕ) ≤ 1 ∧ (1 : ℕ) < 4)
    ∧ (TrajectoryGenerator.initWithRandomParams (TrajectoryGenerator.mkInit 1 false)
        (fun _ => 1) (fun _ => 0) (fun _ _ => 0) (fun _ _ => 0)).oscillators.length
        = (TrajectoryGenerator.mkInit 1 false).dofs :=
  ⟨⟨le_refl 1, by norm_num⟩,
   (initWithRandomParams_bounds (TrajectoryGenerator.mkInit 1 false)
     (fun _ => 1) (fun _ => 0) (fun _ _ => 0) (fun _ _ => 0)
     (fun _ => ⟨le_refl 1, by norm_num⟩) (fun _ => ⟨le_refl 0, by norm_num⟩)
     (fun _ _ => ⟨le_refl 0, by norm_num⟩) (fun _ _ => ⟨le_refl 0, by norm_num⟩)).1⟩

/-- C7: `testConstraints(g)` returns true iff every entry of `g` is at most
the configured tolerance; for a layout-length `g` with exactly one entry
above tolerance, lying in the torque block, the diagnostics flag the
torque limits; and the diagnostics never change the returned boolean,
which is always `np.all(g <= min_tol_constr)`. -/
theorem testConstraints_iff_and_torque_diag :
    (∀ (cfg : OptConfig) (g : List ℚ),
      ((testConstraints cfg g).1 = true ↔ ∀ v ∈ g, v ≤ cfg.min_tol_constr))
    ∧ (∀ (cfg : OptConfig) (g : List ℚ) (i : ℕ),
        g.length = 5 * cfg.dofs →
        3 * cfg.dofs ≤ i → i < 4 * cfg.dofs →
        cfg.min_tol_constr < g.getD i 0 →
        (∀ j, j < g.length → j ≠ i → g.getD j 0 ≤ cfg.min_tol_constr) →
        (testConstraints cfg g).1 = false ∧ (testConstraints cfg g).2.torque = true) := by
  constructor
  · intro cfg g
    simp [testConstraints]
  · intro cfg g i hlen h3 h4 hi _
    have hilen : i < g.length := by rw [hlen]; omega
    have hi' : cfg.min_tol_constr < g[i] := by
      rwa [List.getD_eq_getElem?_getD, List.getElem?_eq_getElem hilen, Option.getD_some] at hi
    have hres : (g.all fun v => decide (v ≤ cfg.min_tol_constr)) = false := by
      rw [List.all_eq_false]
      exact ⟨g[i], List.getElem_mem hilen, by simpa using not_le.mpr hi'⟩
    constructor
    · simp [testConstraints, hres]
    · have hhit : diagHit cfg.min_tol_constr g (3 * cfg.dofs) cfg.dofs = true := by
        rw [diagHit, List.any_eq_true]
        refine ⟨i, List.mem_range'_1.mpr ⟨h3, by omega⟩, ?_⟩
        simp [hilen, le_of_lt hi']
      simp [testConstraints, hres, hhit]

/-- One-DOF configuration with zero constraint tolerance, exercising the
constraint diagnostics and the objective function at concrete inputs. -/
def cfg1 : OptConfig :=
  { dofs := 1, wf_min := 0, wf_max := 10, qmin := -10, qmax := 10,
    amin := -10, amax := 10, bmin := -10, bmax := 10,
    min_tol_constr := 0, limits := fun _ => ⟨-10, 10, 10, 10⟩ }

/-- Witness for the constraint predicate claim: a concrete violated-torque
vector is classified as a torque-limit violation and the boolean is the
all-entries test. -/
theorem testConstraints_iff_and_torque_diag_witness :
    ((testConstraints cfg1 [-1, -1, -1, 1, -1]).1 = true
      ↔ ∀ v ∈ [(-1 : ℚ), -1, -1, 1, -1], v ≤ cfg1.min_tol_constr)
    ∧ (testConstraints cfg1 [-1, -1, -1, 1, -1]).1 = false
    ∧ (testConstraints cfg1 [-1, -1, -1, 1, -1]).2.torque = true :=
  ⟨testConstraints_iff_and_torque_diag.1 cfg1 [-1, -1, -1, 1, -1],
   (testConstraints_iff_and_torque_diag.2 cfg1 [-1, -1, -1, 1, -1] 3
      (by decide) (by decide) (by decide) (by decide) (by decide)).1,
   (testConstraints_iff_and_torque_diag.2 cfg1 [-1, -1, -1, 1, -1] 3
      (by decide) (by decide) (by decide) (by decide) (by decide)).2⟩

/-- C10 counterexample: for `g = [1,0,0,0,0]` with tolerance `0` and one
DOF, the only above-tolerance entry is index 0, `testConstraints` returns
false, and yet the angle-limit diagnostic fires (the `>=`-based scan over
indices `1..2D-1` hits the entry equal to the tolerance), contradicting
the claim that the violation is not classified as an angle-limit one. -/
theorem angle_diag_index_zero_counterexample :
    (testConstraints cfg1 [1, 0, 0, 0, 0]).1 = false
    ∧ (testConstraints cfg1 [1, 0, 0, 0, 0]).2.angle = true
    ∧ cfg1.min_tol_constr < ([1, (0 : ℚ), 0, 0, 0]).getD 0 0
    ∧ (∀ j, j < ([1, (0 : ℚ), 0, 0, 0]).length → 1 ≤ j →
        ¬ (cfg1.min_tol_constr < ([1, (0 : ℚ), 0, 0, 0]).getD j 0)) := by
  decide

/-- C10 amended: the angle-limit diagnostic inspects only indices
`1..2D-1`, so when entry 0 is above tolerance and every entry at an index
`>= 1` is strictly below tolerance, `testConstraints` returns false and
prints the violation header without classifying it as an angle-limit
violation.  (When some other entry merely equals the tolerance, the
`>=`-based diagnostic can still flag angle limits, as the counterexample
shows.) -/
theorem angle_diag_ignores_index_zero (cfg : OptConfig) (g : List ℚ)
    (hd : 0 < cfg.dofs) (hlen : g.length = 5 * cfg.dofs)
    (h0 : cfg.min_tol_constr < g.getD 0 0)
    (hrest : ∀ j, j < g.length → 1 ≤ j → g.getD j 0 < cfg.min_tol_constr) :
    (testConstraints cfg g).1 = false ∧ (testConstraints cfg g).2.angle = false := by
  have hlen0 : 0 < g.length := by rw [hlen]; omega
  have h0' : cfg.min_tol_constr < g[0] := by
    rwa [List.getD_eq_getElem?_getD, List.getElem?_eq_getElem hlen0, Option.getD_some] at h0
  have hres : (g.all fun v => decide (v ≤ cfg.min_tol_constr)) = false := by
    rw [List.all_eq_false]
    exact ⟨g[0], List.getElem_mem hlen0, by simpa using not_le.mpr h0'⟩
  have hhit : diagHit cfg.min_tol_constr g 1 (2 * cfg.dofs - 1) = false := by
    rw [diagHit, List.any_eq_false]
    intro j hj
    rw [List.mem_range'_1] at hj
    have hjlen : j < g.length := by rw [hlen]; omega
    have hlt := hrest j hjlen hj.1
    simp only [Bool.and_eq_true, decide_eq_true_eq, not_and, not_le]
    intro _
    simpa using hlt
  constructor
  · simp [testConstraints, hres]
  · simp [testConstraints, hres, hhit]

/-- Witness for the amended angle-diagnostic claim at a concrete vector
whose non-zero-index entries are strictly below tolerance. -/
theorem angle_diag_ignores_index_zero_witness :
    (0 < cfg1.dofs)
    ∧ (testConstraints cfg1 [1, -1, -1, -1, -1]).1 = false
    ∧ (testConstraints cfg1 [1, -1, -1, -1, -1]).2.angle = false :=
  ⟨by decide,
   (angle_diag_ignores_index_zero cfg1 [1, -1, -1, -1, -1]
      (by decide) (by decide) (by decide) (by decide)).1,
   (angle_diag_ignores_index_zero cfg1 [1, -1, -1, -1, -1]
      (by decide) (by decide) (by decide) (by decide)).2⟩

/-- C2: for every layout-length parameter vector that fails the bounds
test, `objective_func` returns the fixed penalty objective `10000.0`, a
constraint vector of length `5*D` with every entry `10.0`, and fail flag
`1.0`; the state — the iteration counter included — is net-unchanged
(incremented then decremented back), and the result is identical for every
simulation collaborator, so the simulation is never consulted on this
path. -/
theorem objective_func_out_of_bounds (cfg : OptConfig) (sim sim' : SimFun)
    (st : OptState) (x : List ℚ)
    (_hx : x.length = 1 + cfg.dofs + 2 * cfg.dofs * 4)
    (hb : testBounds cfg x = false) :
    objective_func cfg sim st x = ((10000, List.replicate (cfg.dofs * 5) 10, 1), st)
    ∧ (List.replicate (cfg.dofs * 5) (10 : ℚ)).length = 5 * cfg.dofs
    ∧ (∀ v ∈ List.replicate (cfg.dofs * 5) (10 : ℚ), v = 10)
    ∧ objective_func cfg sim st x = objective_func cfg sim' st x := by
  have key : ∀ s : SimFun,
      objective_func cfg s st x = ((10000, List.replicate (cfg.dofs * 5) 10, 1), st) := by
    intro s
    simp only [objective_func, hb, Bool.false_eq_true, if_false, Nat.add_sub_cancel]
  refine ⟨key sim, by simp [Nat.mul_comm], ?_, (key sim).trans (key sim').symm⟩
  intro v hv
  exact List.eq_of_mem_replicate hv

/-- Concrete simulation stub used by in-bounds witnesses: constant
one-sample series per joint and a pulsation-dependent condition number that
stays above the initial best-cache sentinel. -/
def simW : SimFun := fun wf _ _ _ =>
  { positions := fun _ => [0], velocities := fun _ => [2],
    torques := fun _ => [some 5],
    condYBase := if wf = 2 then 150000000000 else 200000000000 }

/-- Witness for the penalty path at a concrete out-of-bounds vector
(pulsation 100 above `wf_max = 10`). -/
theorem objective_func_out_of_bounds_witness :
    ((100 :: List.replicate 9 (0 : ℚ)).length = 1 + cfg1.dofs + 2 * cfg1.dofs * 4)
    ∧ testBounds cfg1 (100 :: List.replicate 9 0) = false
    ∧ objective_func cfg1 simW initOptState (100 :: List.replicate 9 0)
        = ((10000, List.replicate (cfg1.dofs * 5) 10, 1), initOptState) :=
  ⟨by decide, by decide,
   (objective_func_out_of_bounds cfg1 simW simW initOptState (100 :: List.replicate 9 0)
      (by decide) (by decide)).1⟩

/-- Helper: indexing a block built by mapping over `List.range`. -/
theorem rangeMap_getElem (f : ℕ → ℚ) (D n : ℕ) (hn : n < D) :
    ((List.range D).map f)[n]? = some (f n) := by
  simp [List.getElem?_range hn]

/-- Helper: the five-block layout of the constraint vector, entry by
entry. -/
theorem constraintVec_blocks (cfg : OptConfig) (d : SimData) (n : ℕ) (hn : n < cfg.dofs) :
    (constraintVec cfg d).length = 5 * cfg.dofs
    ∧ (constraintVec cfg d)[n]? = some ((cfg.limits n).lower - listMin (d.positions n))
    ∧ (constraintVec cfg d)[cfg.dofs + n]?
        = some (listMax (d.positions n) - (cfg.limits n).upper)
    ∧ (constraintVec cfg d)[2 * cfg.dofs + n]?
        = some (listMax ((d.velocities n).map fun v => |v|) - (cfg.limits n).velocity)
    ∧ (constraintVec cfg d)[3 * cfg.dofs + n]?
        = some (nanMax ((d.torques n).map (Option.map fun v => |v|)) - (cfg.limits n).torque)
    ∧ (constraintVec cfg d)[4 * cfg.dofs + n]?
        = some ((cfg.limits n).velocity * (1 / 10)
            - listMax ((d.velocities n).map fun v => |v|)) := by
  have e1 : cfg.dofs + n - cfg.dofs = n := by omega
  have e2 : 2 * cfg.dofs + n - (cfg.dofs + cfg.dofs) = n := by omega
  have e3 : 3 * cfg.dofs + n - (cfg.dofs + cfg.dofs + cfg.dofs) = n := by omega
  have e4 : 4 * cfg.dofs + n - (cfg.dofs + cfg.dofs + cfg.dofs + cfg.dofs) = n := by omega
  refine ⟨?_, ?_, ?_, ?_, ?_, ?_⟩ <;>
    simp only [constraintVec, List.getElem?_append, List.length_append,
      List.length_map, List.length_range]
  · ring
  · have f1 : n < cfg.dofs + cfg.dofs := by omega
    have f2 : n < cfg.dofs + cfg.dofs + cfg.dofs := by omega
    have f3 : n < cfg.dofs + cfg.dofs + cfg.dofs + cfg.dofs := by omega
    simp [hn, f1, f2, f3, rangeMap_getElem _ _ _ hn]
  · have f0 : ¬ cfg.dofs + n < cfg.dofs := by omega
    have f1 : cfg.dofs + n < cfg.dofs + cfg.dofs := by omega
    have f2 : cfg.dofs + n < cfg.dofs + cfg.dofs + cfg.dofs := by omega
    have f3 : cfg.dofs + n < cfg.dofs + cfg.dofs + cfg.dofs + cfg.dofs := by omega
    simp [f0, f1, f2, f3, e1, rangeMap_getElem _ _ _ hn]
  · have f0 : ¬ 2 * cfg.dofs + n < cfg.dofs := by omega
    have f1 : ¬ 2 * cfg.dofs + n < cfg.dofs + cfg.dofs := by omega
    have f2 : 2 * cfg.dofs + n < cfg.dofs + cfg.dofs + cfg.dofs := by omega
    have f3 : 2 * cfg.dofs + n < cfg.dofs + cfg.dofs + cfg.dofs + cfg.dofs := by omega
    simp [f0, f1, f2, f3, e2, rangeMap_getElem _ _ _ hn]
  · have f0 : ¬ 3 * cfg.dofs + n < cfg.dofs := by omega
    have f1 : ¬ 3 * cfg.dofs + n < cfg.dofs + cfg.dofs := by omega
    have f2 : ¬ 3 * cfg.dofs + n < cfg.dofs + cfg.dofs + cfg.dofs := by omega
    have f3 : 3 * cfg.dofs + n < cfg.dofs + cfg.dofs + cfg.dofs + cfg.dofs := by omega
    simp [f0, f1, f2, f3, e3, rangeMap_getElem _ _ _ hn]
  · have f0 : ¬ 4 * cfg.dofs + n < cfg.dofs := by omega
    have f1 : ¬ 4 * cfg.dofs + n < cfg.dofs + cfg.dofs := by omega
    have f2 : ¬ 4 * cfg.dofs + n < cfg.dofs + cfg.dofs + cfg.dofs := by omega
    have f3 : ¬ 4 * cfg.dofs + n < cfg.dofs + cfg.dofs + cfg.dofs + cfg.dofs := by omega
    simp [f0, f1, f2, f3, e4, rangeMap_getElem _ _ _ hn]

/-- C3: on every in-bounds evaluation of a layout-length vector,
`objective_func` returns a constraint vector of length `5*D` stacked in
five blocks of size `D`: for each joint `n`, entry `n` is
`lower_n - min(positions)`, entry `D+n` is `max(positions) - upper_n`,
entry `2D+n` is `max|velocities| - velocity_n`, entry `3D+n` is
`nanmax|torques| - torque_n` (the NaN-tolerant maximum, which ignores NaN
samples instead of aborting the evaluation), and entry `4D+n` is
`0.1*velocity_n - max|velocities|`. -/
theorem objective_func_constraint_layout (cfg : OptConfig) (sim : SimFun)
    (st : OptState) (x : List ℚ)
    (_hx : x.length = 1 + cfg.dofs + 2 * cfg.dofs * 4)
    (hb : testBounds cfg x = true) (n : ℕ) (hn : n < cfg.dofs) :
    ((objective_func cfg sim st x).1.2.1).length = 5 * cfg.dofs
    ∧ ((objective_func cfg sim st x).1.2.1)[n]?
        = some ((cfg.limits n).lower - listMin ((simAt cfg sim x).positions n))
    ∧ ((objective_func cfg sim st x).1.2.1)[cfg.dofs + n]?
        = some (listMax ((simAt cfg sim x).positions n) - (cfg.limits n).upper)
    ∧ ((objective_func cfg sim st x).1.2.1)[2 * cfg.dofs + n]?
        = some (listMax (((simAt cfg sim x).velocities n).map fun v => |v|)
            - (cfg.limits n).velocity)
    ∧ ((objective_func cfg sim st x).1.2.1)[3 * cfg.dofs + n]?
        = some (nanMax (((simAt cfg sim x).torques n).map (Option.map fun v => |v|))
            - (cfg.limits n).torque)
    ∧ ((objective_func cfg sim st x).1.2.1)[4 * cfg.dofs + n]?
        = some ((cfg.limits n).velocity * (1 / 10)
            - listMax (((simAt cfg sim x).velocities n).map fun v => |v|))
    ∧ (∀ l : List (Option ℚ), nanMax (none :: l) = nanMax l) := by
  have hg : (objective_func cfg sim st x).1.2.1 = constraintVec cfg (simAt cfg sim x) := by
    simp [objective_func, hb, simAt]
  obtain ⟨h0, h1, h2, h3, h4, h5⟩ := constraintVec_blocks cfg (simAt cfg sim x) n hn
  rw [hg]
  exact ⟨h0, h1, h2, h3, h4, h5, fun l => by simp [nanMax]⟩

/-- Concrete in-bounds one-DOF parameter vectors (pulsations 1 and 2, zero
offsets and coefficients) for the witnesses and the cache scenario. -/
def x1c : List ℚ := [1, 0, 0, 0, 0, 0, 0, 0, 0, 0]

/-- Second concrete in-bounds parameter vector, differing in the pulsation. -/
def x2c : List ℚ := [2, 0, 0, 0, 0, 0, 0, 0, 0, 0]

/-- Witness for the constraint-layout claim at a concrete in-bounds
evaluation. -/
theorem objective_func_constraint_layout_witness :
    (x1c.length = 1 + cfg1.dofs + 2 * cfg1.dofs * 4)
    ∧ testBounds cfg1 x1c = true
    ∧ ((objective_func cfg1 simW initOptState x1c).1.2.1).length = 5 * cfg1.dofs
    ∧ ((objective_func cfg1 simW initOptState x1c).1.2.1)[0]?
        = some ((cfg1.limits 0).lower - listMin ((simAt cfg1 simW x1c).positions 0)) :=
  ⟨by decide, by decide,
   (objective_func_constraint_layout cfg1 simW initOptState x1c
      (by decide) (by decide) 0 (by decide)).1,
   (objective_func_constraint_layout cfg1 simW initOptState x1c
      (by decide) (by decide) 0 (by decide)).2.1⟩

/-- Helper: the exact cache update of an in-bounds evaluation — the cache
becomes `(f, x)` when the point is feasible and `f` improves on the cached
value, and is untouched otherwise (lines 368-371). -/
theorem objective_func_cache_eq (cfg : OptConfig) (sim : SimFun) (st : OptState)
    (x : List ℚ) (hb : testBounds cfg x = true) :
    ((objective_func cfg sim st x).2.last_best_f,
      (objective_func cfg sim st x).2.last_best_sol)
      = if feasible cfg sim x ∧ evalObj cfg sim x < st.last_best_f
        then (evalObj cfg sim x, some x)
        else (st.last_best_f, st.last_best_sol) := by
  simp only [objective_func, hb, if_true, feasible, evalObj, evalG, simAt]
  split <;> split <;> simp_all

/-- Helper: the cached best objective never increases across an
evaluation, on either path of `objective_func`. -/
theorem objective_func_cache_mono (cfg : OptConfig) (sim : SimFun) (st : OptState)
    (x : List ℚ) :
    (objective_func cfg sim st x).2.last_best_f ≤ st.last_best_f := by
  by_cases hb : testBounds cfg x = true
  · have h := objective_func_cache_eq cfg sim st x hb
    by_cases hc : (feasible cfg sim x = true) ∧ evalObj cfg sim x < st.last_best_f
    · rw [if_pos hc] at h
      have h1 := congrArg Prod.fst h
      simp only at h1
      rw [h1]
      exact le_of_lt hc.2
    · rw [if_neg hc] at h
      have h1 := congrArg Prod.fst h
      simp only at h1
      rw [h1]
  · have hb' : testBounds cfg x = false := by
      cases h : testBounds cfg x
      · rfl
      · exact absurd h hb
    simp only [objective_func, hb', Bool.false_eq_true, if_false]
    exact le_rfl

/-- Helper: the two-evaluation scenario from the freshly initialised
cache: if `x1` and `x2` are in-bounds and feasible, `f(x2) < f(x1)`, and
`f(x2)` improves on the `10e10` sentinel, then after evaluating `x1` then
`x2` the cache holds `(f(x2), x2)` — whether or not the first evaluation
got to update the cache (when `f(x1)` beats the sentinel the cache passes
through `(f(x1), x1)`; otherwise it still holds the sentinel and the
second evaluation updates it directly). -/
theorem objective_func_cache_scenario (cfg : OptConfig) (sim : SimFun)
    (x1 x2 : List ℚ)
    (hb1 : testBounds cfg x1 = true) (hb2 : testBounds cfg x2 = true)
    (hf1 : feasible cfg sim x1 = true) (hf2 : feasible cfg sim x2 = true)
    (hs2 : evalObj cfg sim x2 < initOptState.last_best_f)
    (hlt : evalObj cfg sim x2 < evalObj cfg sim x1) :
    (objective_func cfg sim (objective_func cfg sim initOptState x1).2 x2).2.last_best_f
        = evalObj cfg sim x2
    ∧ (objective_func cfg sim (objective_func cfg sim initOptState x1).2 x2).2.last_best_sol
        = some x2 := by
  have h1 := objective_func_cache_eq cfg sim initOptState x1 hb1
  have h2 := objective_func_cache_eq cfg sim (objective_func cfg sim initOptState x1).2 x2 hb2
  by_cases hs1 : evalObj cfg sim x1 < initOptState.last_best_f
  · rw [if_pos ⟨hf1, hs1⟩, Prod.mk.injEq] at h1
    obtain ⟨h1f, -⟩ := h1
    rw [h1f, if_pos ⟨hf2, hlt⟩, Prod.mk.injEq] at h2
    exact h2
  · rw [if_neg (fun hc => hs1 hc.2), Prod.mk.injEq] at h1
    obtain ⟨h1f, -⟩ := h1
    rw [h1f, if_pos ⟨hf2, hs2⟩, Prod.mk.injEq] at h2
    exact h2

/-- C1 (amended): the best-feasible cache is updated by `objective_func`
exactly when the evaluated point is feasible and its objective is strictly
below the cached value; consequently the cached objective is
non-increasing across evaluations; and the two-evaluation scenario from
the fresh state holds provided the second objective `f2` is below the
initial `10e10` cache sentinel: after a feasible `x1` with objective `f1`
and then a feasible `x2` with `f2 < f1` and `f2 < 10e10`, the cache holds
`(f2, x2)`.  (The counterexample exhibits feasible `f2 < f1` both at or
above the sentinel, where the cache instead keeps `(10e10, None)`.) -/
theorem best_cache_update_characterization :
    (∀ (cfg : OptConfig) (sim : SimFun) (st : OptState) (x : List ℚ),
      testBounds cfg x = true →
      ((objective_func cfg sim st x).2.last_best_f,
        (objective_func cfg sim st x).2.last_best_sol)
        = if feasible cfg sim x ∧ evalObj cfg sim x < st.last_best_f
          then (evalObj cfg sim x, some x)
          else (st.last_best_f, st.last_best_sol))
    ∧ (∀ (cfg : OptConfig) (sim : SimFun) (st : OptState) (x : List ℚ),
        (objective_func cfg sim st x).2.last_best_f ≤ st.last_best_f)
    ∧ (∀ (cfg : OptConfig) (sim : SimFun) (x1 x2 : List ℚ),
        testBounds cfg x1 = true → testBounds cfg x2 = true →
        feasible cfg sim x1 = true → feasible cfg sim x2 = true →
        evalObj cfg sim x2 < initOptState.last_best_f →
        evalObj cfg sim x2 < evalObj cfg sim x1 →
        (objective_func cfg sim (objective_func cfg sim initOptState x1).2 x2).2.last_best_f
            = evalObj cfg sim x2
        ∧ (objective_func cfg sim (objective_func cfg sim initOptState x1).2 x2).2.last_best_sol
            = some x2) :=
  ⟨objective_func_cache_eq, objective_func_cache_mono,
   fun cfg sim x1 x2 hb1 hb2 hf1 hf2 hs2 hlt =>
     objective_func_cache_scenario cfg sim x1 x2 hb1 hb2 hf1 hf2 hs2 hlt⟩


/-- Evaluation helper: the constraint vector of the stub simulation at the
first concrete in-bounds vector. -/
theorem evalG_simW_x1c : evalG cfg1 simW x1c = [-10, -10, -8, -5, -1] := by
  have h2 : |(2 : ℚ)| = 2 := abs_of_nonneg (by norm_num)
  have h5 : |(5 : ℚ)| = 5 := abs_of_nonneg (by norm_num)
  simp only [evalG, simAt, vecToParams, splitRows, x1c, cfg1, simW, constraintVec,
    listMin, listMax, nanMax, List.range_succ, List.range_zero]
  norm_num [List.min?, List.max?, List.filterMap, h2, h5]

/-- Evaluation helper: the constraint vector is the same at the second
vector (the stub's series do not depend on the parameters). -/
theorem evalG_simW_x2c : evalG cfg1 simW x2c = [-10, -10, -8, -5, -1] := by
  have h2 : |(2 : ℚ)| = 2 := abs_of_nonneg (by norm_num)
  have h5 : |(5 : ℚ)| = 5 := abs_of_nonneg (by norm_num)
  simp only [evalG, simAt, vecToParams, splitRows, x2c, cfg1, simW, constraintVec,
    listMin, listMax, nanMax, List.range_succ, List.range_zero]
  norm_num [List.min?, List.max?, List.filterMap, h2, h5]

/-- Evaluation helper: both concrete vectors are feasible under the stub. -/
theorem feasible_simW_x1c : feasible cfg1 simW x1c = true := by
  simp only [feasible, evalG_simW_x1c]
  decide

/-- Evaluation helper: feasibility of the second vector under the stub. -/
theorem feasible_simW_x2c : feasible cfg1 simW x2c = true := by
  simp only [feasible, evalG_simW_x2c]
  decide

/-- Evaluation helper: the objective at the first vector is the stub's
condition number `2*10^11` (the torque deficit is negative, so `f1 = 0`). -/
theorem evalObj_simW_x1c : evalObj cfg1 simW x1c = 200000000000 := by
  have h5 : |(5 : ℚ)| = 5 := abs_of_nonneg (by norm_num)
  simp only [evalObj, simAt, vecToParams, splitRows, x1c, cfg1, simW, f1val,
    npMaxAbsOpt, List.range_succ, List.range_zero]
  norm_num [List.filterMap, List.max?, h5]

/-- Evaluation helper: the objective at the second vector is `1.5*10^11`. -/
theorem evalObj_simW_x2c : evalObj cfg1 simW x2c = 150000000000 := by
  have h5 : |(5 : ℚ)| = 5 := abs_of_nonneg (by norm_num)
  simp only [evalObj, simAt, vecToParams, splitRows, x2c, cfg1, simW, f1val,
    npMaxAbsOpt, List.range_succ, List.range_zero]
  norm_num [List.filterMap, List.max?, h5]

/-- C1 counterexample: with the condition numbers `2*10^11` for `x1c` and
`1.5*10^11` for `x2c` — both evaluations in-bounds and feasible, and
`f2 < f1` — the cache after both calls still holds the initial sentinel
`(10e10, None)`, not `(f2, x2)`: the two-evaluation scenario fails as
stated when `f2` (and hence `f1`) does not improve on the initial cache. -/
theorem best_cache_scenario_counterexample :
    testBounds cfg1 x1c = true ∧ testBounds cfg1 x2c = true
    ∧ feasible cfg1 simW x1c = true ∧ feasible cfg1 simW x2c = true
    ∧ evalObj cfg1 simW x2c < evalObj cfg1 simW x1c
    ∧ (objective_func cfg1 simW (objective_func cfg1 simW initOptState x1c).2 x2c).2.last_best_f
        = initOptState.last_best_f
    ∧ (objective_func cfg1 simW (objective_func cfg1 simW initOptState x1c).2 x2c).2.last_best_sol
        = none
    ∧ ¬ ((objective_func cfg1 simW (objective_func cfg1 simW initOptState x1c).2 x2c).2.last_best_f
        = evalObj cfg1 simW x2c) := by
  have hb1 : testBounds cfg1 x1c = true := by decide
  have hb2 : testBounds cfg1 x2c = true := by decide
  have h1 := objective_func_cache_eq cfg1 simW initOptState x1c hb1
  rw [if_neg (by
    rintro ⟨-, hlt⟩
    rw [evalObj_simW_x1c] at hlt
    norm_num [initOptState] at hlt)] at h1
  rw [Prod.mk.injEq] at h1
  obtain ⟨h1f, h1s⟩ := h1
  have h2 := objective_func_cache_eq cfg1 simW
    (objective_func cfg1 simW initOptState x1c).2 x2c hb2
  rw [if_neg (by
    rintro ⟨-, hlt⟩
    rw [evalObj_simW_x2c, h1f] at hlt
    norm_num [initOptState] at hlt)] at h2
  rw [Prod.mk.injEq] at h2
  obtain ⟨h2f, h2s⟩ := h2
  refine ⟨hb1, hb2, feasible_simW_x1c, feasible_simW_x2c, ?_, ?_, ?_, ?_⟩
  · rw [evalObj_simW_x1c, evalObj_simW_x2c]; norm_num
  · rw [h2f, h1f]
  · rw [h2s, h1s]; rfl
  · rw [h2f, h1f, evalObj_simW_x2c]; norm_num [initOptState]

/-- Simulation stub whose condition numbers (7 then 5) do improve on the
initial cache sentinel, for the amended scenario witness. -/
def simW2 : SimFun := fun wf _ _ _ =>
  { positions := fun _ => [0], velocities := fun _ => [2],
    torques := fun _ => [some 5],
    condYBase := if wf = 2 then 5 else 7 }

/-- Evaluation helpers for the improving stub: both vectors stay feasible
and the objectives are 7 and 5. -/
theorem feasible_simW2_x1c : feasible cfg1 simW2 x1c = true := by
  have h2 : |(2 : ℚ)| = 2 := abs_of_nonneg (by norm_num)
  have h5 : |(5 : ℚ)| = 5 := abs_of_nonneg (by norm_num)
  have hG : evalG cfg1 simW2 x1c = [-10, -10, -8, -5, -1] := by
    simp only [evalG, simAt, vecToParams, splitRows, x1c, cfg1, simW2, constraintVec,
      listMin, listMax, nanMax, List.range_succ, List.range_zero]
    norm_num [List.min?, List.max?, List.filterMap, h2, h5]
  simp only [feasible, hG]
  decide

/-- Feasibility of the second vector under the improving stub. -/
theorem feasible_simW2_x2c : feasible cfg1 simW2 x2c = true := by
  have h2 : |(2 : ℚ)| = 2 := abs_of_nonneg (by norm_num)
  have h5 : |(5 : ℚ)| = 5 := abs_of_nonneg (by norm_num)
  have hG : evalG cfg1 simW2 x2c = [-10, -10, -8, -5, -1] := by
    simp only [evalG, simAt, vecToParams, splitRows, x2c, cfg1, simW2, constraintVec,
      listMin, listMax, nanMax, List.range_succ, List.range_zero]
    norm_num [List.min?, List.max?, List.filterMap, h2, h5]
  simp only [feasible, hG]
  decide

/-- Objective of the improving stub at the first vector. -/
theorem evalObj_simW2_x1c : evalObj cfg1 simW2 x1c = 7 := by
  have h5 : |(5 : ℚ)| = 5 := abs_of_nonneg (by norm_num)
  simp only [evalObj, simAt, vecToParams, splitRows, x1c, cfg1, simW2, f1val,
    npMaxAbsOpt, List.range_succ, List.range_zero]
  norm_num [List.filterMap, List.max?, h5]

/-- Objective of the improving stub at the second vector. -/
theorem evalObj_simW2_x2c : evalObj cfg1 simW2 x2c = 5 := by
  have h5 : |(5 : ℚ)| = 5 := abs_of_nonneg (by norm_num)
  simp only [evalObj, simAt, vecToParams, splitRows, x2c, cfg1, simW2, f1val,
    npMaxAbsOpt, List.range_succ, List.range_zero]
  norm_num [List.filterMap, List.max?, h5]

/-- Witness for the amended cache claim: the scenario conclusion at the
concrete feasible inputs with improving objectives 7 then 5. -/
theorem best_cache_update_characterization_witness :
    testBounds cfg1 x1c = true
    ∧ (objective_func cfg1 simW2 (objective_func cfg1 simW2 initOptState x1c).2 x2c).2.last_best_f
        = evalObj cfg1 simW2 x2c
    ∧ (objective_func cfg1 simW2 (objective_func cfg1 simW2 initOptState x1c).2 x2c).2.last_best_sol
        = some x2c :=
  ⟨by decide,
   (best_cache_update_characterization.2.2 cfg1 simW2 x1c x2c
      (by decide) (by decide) feasible_simW2_x1c feasible_simW2_x2c
      (by rw [evalObj_simW2_x2c]; norm_num [initOptState])
      (by rw [evalObj_simW2_x1c, evalObj_simW2_x2c]; norm_num)).1,
   (best_cache_update_characterization.2.2 cfg1 simW2 x1c x2c
      (by decide) (by decide) feasible_simW2_x1c feasible_simW2_x2c
      (by rw [evalObj_simW2_x2c]; norm_num [initOptState])
      (by rw [evalObj_simW2_x1c, evalObj_simW2_x2c]; norm_num)).2⟩
